import Mathlib

/-!
Verification of `mdtools/openmm/reporter.py` (class `OfflineReporter`).

The reporter batches per-frame structural descriptors (contact map in COO
format, point cloud, RMSD, fraction of contacts) and flushes a full batch
to an HDF5 file.  We embed the accumulation/flush state machine shallowly:
positions are rational 3-vectors, machine `int16` casts are explicit
`% 2^16` arithmetic on `Int`, the HDF5 container is an association list
from path to content, and the fallible constructor returns `Except`.
-/

/-- A 3D coordinate, as in one row of the `(m, 3)` position array. -/
def Vec3 : Type := ℚ × ℚ × ℚ

instance : DecidableEq Vec3 := by unfold Vec3; infer_instance

namespace Vec3

/-- Component `c` of a 3-vector (`c = 0,1,2` for x,y,z). -/
def coord (c : Fin 3) (v : Vec3) : ℚ :=
  match c with
  | ⟨0, _⟩ => v.1
  | ⟨1, _⟩ => v.2.1
  | ⟨2, _⟩ => v.2.2

end Vec3

/-- Squared Euclidean distance between two points. -/
def sqDist (p q : Vec3) : ℚ :=
  (p.1 - q.1) ^ 2 + (p.2.1 - q.2.1) ^ 2 + (p.2.2 - q.2.2) ^ 2

/-- Euclidean distance between two points, as a real number. -/
noncomputable def dist3 (p q : Vec3) : ℝ := Real.sqrt ((sqDist p q : ℚ) : ℝ)

/-- Modelled from the spec: `MDAnalysis.analysis.distances.contact_matrix`
(an external library routine called by `OfflineReporter._compute_contact_map`,
reporter.py lines 137-141, not part of this repository's sources): the sparse
boolean contact matrix has entry `(i, j)` true iff `i ≠ j`, both indices are
in range, and the Euclidean distance between atoms `i` and `j` is at most the
threshold (compared on squared distances, which is equivalent for a
nonnegative threshold). -/
def contact_matrix (positions : List Vec3) (threshold : ℚ) (i j : ℕ) : Bool :=
  decide (i ≠ j) && decide (i < positions.length) && decide (j < positions.length)
    && decide (sqDist (positions.getD i (0, 0, 0)) (positions.getD j (0, 0, 0)) ≤ threshold ^ 2)

/-- The true entries of one frame's contact matrix in COO (row-major) order,
as produced by `scipy.sparse`'s `tocoo()` in `_collect_contact_map`. -/
def contactPairs (positions : List Vec3) (threshold : ℚ) : List (ℕ × ℕ) :=
  (List.range positions.length).flatMap fun i =>
    (List.range positions.length).filterMap fun j =>
      if contact_matrix positions threshold i j then some (i, j) else none

/-- `numpy`'s `astype("int16")` on a nonnegative index: wrap modulo `2^16`
into the signed 16-bit range `[-2^15, 2^15)`. -/
def int16cast (n : ℕ) : ℤ := ((n + 2 ^ 15) % 2 ^ 16 : ℕ) - 2 ^ 15

/-- Row indices stored for one frame: `coo.row.astype("int16")`
(reporter.py line 146). -/
def frameRows (positions : List Vec3) (threshold : ℚ) : List ℤ :=
  (contactPairs positions threshold).map fun p => int16cast p.1

/-- Column indices stored for one frame: `coo.col.astype("int16")`
(reporter.py line 147). -/
def frameCols (positions : List Vec3) (threshold : ℚ) : List ℤ :=
  (contactPairs positions threshold).map fun p => int16cast p.2

/-- The constructor configuration of `OfflineReporter` (reporter.py
lines 40-53).  `file` is the output base name; the reference pdb file matters
only through being configured or not, so we keep the path string. -/
structure Config where
  base_name : String
  reportInterval : ℕ
  frames_per_h5 : ℕ
  reference_pdb_file : Option String
  threshold : ℚ
  contact_map : Bool
  point_cloud : Bool
  fraction_of_contacts : Bool
deriving DecidableEq

/-- The mutable accumulation state created by `_init_batch` (reporter.py
lines 109-124): a frame counter plus one buffer per descriptor.  In the
Python, a buffer attribute exists only when its feature is enabled; here all
buffers are present and the enabled ones are the ones `collect` appends to. -/
structure BatchState where
  num_frames : ℕ
  rows : List (List ℤ)
  cols : List (List ℤ)
  rmsd : List ℚ
  foc : List ℚ
  point_cloud : List (List Vec3)
deriving DecidableEq

/-- The empty batch produced by `_init_batch`: counter 0, all buffers empty. -/
def initBatch : BatchState :=
  { num_frames := 0, rows := [], cols := [], rmsd := [], foc := [], point_cloud := [] }

/-- One `report` call's input: the selected-atom positions (already
unit-converted), together with the scalar values produced by the external
library calls `rms.rmsd` and `fraction_of_contacts`, which we keep abstract
since only their collection matters to the accumulation protocol. -/
structure ReportInput where
  positions : List Vec3
  rmsdVal : ℚ
  focVal : ℚ

/-- The accumulation part of `OfflineReporter.report` (reporter.py lines
166-179): collect the enabled descriptors, then increment the frame counter.
RMSD is collected whenever `self._reference_positions is not None`, i.e.
whenever a reference pdb file is configured. -/
def collect (cfg : Config) (i : ReportInput) (b : BatchState) : BatchState :=
  let b := if cfg.contact_map then
      { b with rows := b.rows ++ [frameRows i.positions cfg.threshold],
               cols := b.cols ++ [frameCols i.positions cfg.threshold] }
    else b
  let b := if cfg.fraction_of_contacts then { b with foc := b.foc ++ [i.focVal] } else b
  let b := if cfg.point_cloud then { b with point_cloud := b.point_cloud ++ [i.positions] } else b
  let b := if cfg.reference_pdb_file.isSome then { b with rmsd := b.rmsd ++ [i.rmsdVal] } else b
  { b with num_frames := b.num_frames + 1 }

/-- One point-cloud frame after `np.transpose(·, [0, 2, 1])`: the three
per-coordinate lists (x-, y-, z-components over atoms). -/
def transposeFrame (fr : List Vec3) : List ℚ × List ℚ × List ℚ :=
  (fr.map Prod.fst, fr.map fun v => v.2.1, fr.map fun v => v.2.2)

/-- `np.transpose(batch, [0, 2, 1])`: reorder a `[frame, atom, coordinate]`
batch into `[frame, coordinate, atom]` layout (reporter.py lines 190-192). -/
def transpose021 (batch : List (List Vec3)) : List (List ℚ × List ℚ × List ℚ) :=
  batch.map transposeFrame

/-- Coordinate slice `c` of a transposed frame: the list indexed by the
middle axis of the `[frame, coordinate, atom]` layout. -/
def sliceCoord (c : Fin 3) (t : List ℚ × List ℚ × List ℚ) : List ℚ :=
  match c with
  | ⟨0, _⟩ => t.1
  | ⟨1, _⟩ => t.2.1
  | ⟨2, _⟩ => t.2.2

/-- Contents of the HDF5 file written by one flush: one named slot per
enabled feature (reporter.py lines 184-200). -/
structure H5Content where
  contactMapSlot : Option (List (List ℤ) × List (List ℤ))
  pointCloudSlot : Option (List (List ℚ × List ℚ × List ℚ))
  rmsdSlot : Option (List ℚ)
  focSlot : Option (List ℚ)
deriving DecidableEq

/-- What one flush serializes from a full batch. -/
def flushContent (cfg : Config) (b : BatchState) : H5Content :=
  { contactMapSlot := if cfg.contact_map then some (b.rows, b.cols) else none,
    pointCloudSlot := if cfg.point_cloud then some (transpose021 b.point_cloud) else none,
    rmsdSlot := if cfg.reference_pdb_file.isSome then some b.rmsd else none,
    focSlot := if cfg.fraction_of_contacts then some b.foc else none }

/-- The file system as a path-to-content association; `h5py.File(path, "w")`
overwrites whatever was at the path. -/
def FileSystem : Type := List (String × H5Content)

instance : DecidableEq FileSystem := by unfold FileSystem; infer_instance

/-- Overwrite semantics of opening a path in mode `"w"` and writing. -/
def writeFile (fs : FileSystem) (path : String) (content : H5Content) : FileSystem :=
  (path, content) :: fs.filter fun e => e.1 ≠ path

/-- Look up a path's current content. -/
def readFile (fs : FileSystem) (path : String) : Option H5Content :=
  (fs.find? fun e => decide (e.1 = path)).map Prod.snd

/-- The reporter object: configuration, the never-used `_file_idx` counter,
the accumulation state, and the file system it writes to. -/
structure OfflineReporter where
  cfg : Config
  file_idx : ℕ
  batch : BatchState
  fs : FileSystem

/-- `OfflineReporter.__init__` (reporter.py lines 40-78): validate that
`fraction_of_contacts` and `contact_map` each have a configured reference pdb
file, raising `ValueError` otherwise; then initialize `_file_idx = 0` and an
empty batch. -/
def OfflineReporter.init (cfg : Config) (fs : FileSystem) : Except String OfflineReporter :=
  if cfg.fraction_of_contacts && cfg.reference_pdb_file.isNone then
    .error "Computing `fraction_of_contacts` requires `refernce_pdb_file`."
  else if cfg.contact_map && cfg.reference_pdb_file.isNone then
    .error "Computing `contact_map` requires `refernce_pdb_file`."
  else
    .ok { cfg := cfg, file_idx := 0, batch := initBatch, fs := fs }

/-- `OfflineReporter.describeNextReport` (reporter.py lines 126-128):
`(interval - step % interval, True, False, False, False, None)`. -/
def OfflineReporter.describeNextReport (r : OfflineReporter) (currentStep : ℕ) :
    ℕ × Bool × Bool × Bool × Bool × Option Unit :=
  (r.cfg.reportInterval - currentStep % r.cfg.reportInterval, true, false, false, false, none)

/-- `OfflineReporter.report` (reporter.py lines 157-202): collect this
frame's descriptors, and if the incremented counter equals `frames_per_h5`,
write every enabled buffer to `f"{base_name}.h5"` and reset the batch.  The
second component is the flush event (path and content written), `none` when
no flush happened. -/
def OfflineReporter.report (r : OfflineReporter) (i : ReportInput) :
    OfflineReporter × Option (String × H5Content) :=
  let b := collect r.cfg i r.batch
  if b.num_frames = r.cfg.frames_per_h5 then
    let path := r.cfg.base_name ++ ".h5"
    ({ r with batch := initBatch, fs := writeFile r.fs path (flushContent r.cfg b) },
     some (path, flushContent r.cfg b))
  else
    ({ r with batch := b }, none)

/-- A sequence of `report` calls, returning the final reporter and the list
of flush events in order. -/
def runReports (r : OfflineReporter) : List ReportInput → OfflineReporter × List (String × H5Content)
  | [] => (r, [])
  | i :: rest =>
    let step := r.report i
    let tail := runReports step.1 rest
    (tail.1, step.2.toList ++ tail.2)

/-- Folding `collect` over a list of inputs (the batch accumulated by a
flush-free run). -/
def collectRun (cfg : Config) (b : BatchState) (inputs : List ReportInput) : BatchState :=
  inputs.foldl (fun b i => collect cfg i b) b

/-- The point-cloud buffer as held by `self._point_cloud_data`: normally a
list of `(m, 3)` frames; inside the flush body, line 190 reassigns it to the
transposed `(n, 3, m)` array before writing. -/
inductive PCBuffer where
  | raw (frames : List (List Vec3))
  | transposed (data : List (List ℚ × List ℚ × List ℚ))
deriving DecidableEq

/-- The in-memory accumulation state as seen across the flush body, where
the point-cloud buffer may be in either layout. -/
structure MemState where
  num_frames : ℕ
  rows : List (List ℤ)
  cols : List (List ℤ)
  rmsd : List ℚ
  foc : List ℚ
  point_cloud : PCBuffer
deriving DecidableEq

/-- View a batch as the in-memory state at the start of a flush. -/
def BatchState.toMem (b : BatchState) : MemState :=
  { num_frames := b.num_frames, rows := b.rows, cols := b.cols,
    rmsd := b.rmsd, foc := b.foc, point_cloud := .raw b.point_cloud }

/-- The steps executed inside the `with h5py.File(...)` block of `report`
(reporter.py lines 184-200), in order.  `transposePC` is the in-place
reassignment of `self._point_cloud_data` on lines 190-192; the others are
the fallible container I/O operations. -/
inductive FlushStep where
  | openFile
  | writeCM
  | transposePC
  | writePC
  | writeRMSD
  | writeFOC
  | closeFile
deriving DecidableEq

/-- The sequence of flush-body steps for a given configuration. -/
def flushSteps (cfg : Config) : List FlushStep :=
  [.openFile]
    ++ (if cfg.contact_map then [.writeCM] else [])
    ++ (if cfg.point_cloud then [.transposePC, .writePC] else [])
    ++ (if cfg.reference_pdb_file.isSome then [.writeRMSD] else [])
    ++ (if cfg.fraction_of_contacts then [.writeFOC] else [])
    ++ [.closeFile]

/-- Effect of one flush-body step on the in-memory state: only the
point-cloud transposition mutates memory (the write steps go to the file).
`flushSteps` performs the transposition at most once, on the raw buffer. -/
def applyFlushStep (m : MemState) : FlushStep → MemState
  | .transposePC =>
    { m with point_cloud :=
        match m.point_cloud with
        | .raw frames => .transposed (transpose021 frames)
        | .transposed d => .transposed d }
  | _ => m

/-- The in-memory state after an `IOError` aborts the flush at step `k`
(0-based): the first `k` steps ran, step `k` raised, and the error propagated
out of `report`, so `_init_batch` on line 202 never ran. -/
def memAfterAbort (cfg : Config) (b : BatchState) (k : ℕ) : MemState :=
  ((flushSteps cfg).take k).foldl applyFlushStep b.toMem

/-- The effect of the line-190 reassignment on the point-cloud buffer. -/
def PCBuffer.afterTranspose : PCBuffer → PCBuffer
  | .raw frames => .transposed (transpose021 frames)
  | .transposed d => .transposed d

/-! ### Concrete fixtures used to instantiate the theorems -/

/-- Point-cloud-only configuration with a batch size of 2 (the spec's
example scenario). -/
def cfgPCOnly : Config :=
  { base_name := "out", reportInterval := 1, frames_per_h5 := 2,
    reference_pdb_file := none, threshold := 8,
    contact_map := false, point_cloud := true, fraction_of_contacts := false }

/-- Configuration with every feature enabled and a reference structure. -/
def cfgAll : Config :=
  { base_name := "traj", reportInterval := 10, frames_per_h5 := 1,
    reference_pdb_file := some "ref.pdb", threshold := 8,
    contact_map := true, point_cloud := true, fraction_of_contacts := true }

/-- Point-cloud-only configuration with the default batch size 0. -/
def cfgZero : Config :=
  { base_name := "out0", reportInterval := 1, frames_per_h5 := 0,
    reference_pdb_file := none, threshold := 8,
    contact_map := false, point_cloud := true, fraction_of_contacts := false }

/-- Invalid configuration: fraction of contacts without a reference file. -/
def cfgBadFoc : Config :=
  { base_name := "out", reportInterval := 1, frames_per_h5 := 0,
    reference_pdb_file := none, threshold := 8,
    contact_map := false, point_cloud := false, fraction_of_contacts := true }

/-- Point-cloud and RMSD configuration with a batch size of 1, used for the
aborted-flush analysis. -/
def cfgPCRef : Config :=
  { base_name := "out", reportInterval := 1, frames_per_h5 := 1,
    reference_pdb_file := some "ref.pdb", threshold := 8,
    contact_map := false, point_cloud := true, fraction_of_contacts := false }

/-- Two atoms 1 Å apart. -/
def frameA : List Vec3 := [(0, 0, 0), (1, 0, 0)]

/-- Two atoms 2 Å apart. -/
def frameB : List Vec3 := [(0, 0, 0), (2, 0, 0)]

/-- Report inputs for the two frames. -/
def inA : ReportInput := { positions := frameA, rmsdVal := 0, focVal := 0 }

def inB : ReportInput := { positions := frameB, rmsdVal := 0, focVal := 0 }

/-- Freshly constructed reporters over an empty file system. -/
def rPC : OfflineReporter := { cfg := cfgPCOnly, file_idx := 0, batch := initBatch, fs := [] }

def rZero : OfflineReporter := { cfg := cfgZero, file_idx := 0, batch := initBatch, fs := [] }

def rAll : OfflineReporter := { cfg := cfgAll, file_idx := 0, batch := initBatch, fs := [] }

/-- A one-frame batch accumulated under `cfgPCRef`, about to be flushed. -/
def bC6 : BatchState :=
  { num_frames := 1, rows := [], cols := [], rmsd := [0], foc := [], point_cloud := [frameA] }

/-! ### Basic lemmas about one collection step -/

theorem collect_num_frames (cfg : Config) (i : ReportInput) (b : BatchState) :
    (collect cfg i b).num_frames = b.num_frames + 1 := by
  simp only [collect]
  split <;> split <;> split <;> split <;> rfl

theorem collect_rows (cfg : Config) (i : ReportInput) (b : BatchState) :
    (collect cfg i b).rows =
      if cfg.contact_map then b.rows ++ [frameRows i.positions cfg.threshold] else b.rows := by
  simp only [collect]
  split <;> split <;> split <;> split <;> rfl

theorem collect_cols (cfg : Config) (i : ReportInput) (b : BatchState) :
    (collect cfg i b).cols =
      if cfg.contact_map then b.cols ++ [frameCols i.positions cfg.threshold] else b.cols := by
  simp only [collect]
  split <;> split <;> split <;> split <;> rfl

theorem collect_rmsd (cfg : Config) (i : ReportInput) (b : BatchState) :
    (collect cfg i b).rmsd =
      if cfg.reference_pdb_file.isSome then b.rmsd ++ [i.rmsdVal] else b.rmsd := by
  simp only [collect]
  split <;> split <;> split <;> split <;> rfl

theorem collect_foc (cfg : Config) (i : ReportInput) (b : BatchState) :
    (collect cfg i b).foc =
      if cfg.fraction_of_contacts then b.foc ++ [i.focVal] else b.foc := by
  simp only [collect]
  split <;> split <;> split <;> split <;> rfl

theorem collect_point_cloud (cfg : Config) (i : ReportInput) (b : BatchState) :
    (collect cfg i b).point_cloud =
      if cfg.point_cloud then b.point_cloud ++ [i.positions] else b.point_cloud := by
  simp only [collect]
  split <;> split <;> split <;> split <;> rfl

/-! ### Lemmas about one report call -/

theorem report_no_flush (r : OfflineReporter) (i : ReportInput)
    (h : (collect r.cfg i r.batch).num_frames ≠ r.cfg.frames_per_h5) :
    r.report i = ({ r with batch := collect r.cfg i r.batch }, none) := by
  simp only [OfflineReporter.report, if_neg h]

theorem report_flush (r : OfflineReporter) (i : ReportInput)
    (h : (collect r.cfg i r.batch).num_frames = r.cfg.frames_per_h5) :
    r.report i =
      ({ r with batch := initBatch,
                fs := writeFile r.fs (r.cfg.base_name ++ ".h5")
                        (flushContent r.cfg (collect r.cfg i r.batch)) },
       some (r.cfg.base_name ++ ".h5", flushContent r.cfg (collect r.cfg i r.batch))) := by
  simp only [OfflineReporter.report, if_pos h]

/-! ### Lemmas about runs -/

theorem runReports_nil (r : OfflineReporter) : runReports r [] = (r, []) := rfl

theorem runReports_cons (r : OfflineReporter) (i : ReportInput) (l : List ReportInput) :
    runReports r (i :: l) =
      ((runReports (r.report i).1 l).1, (r.report i).2.toList ++ (runReports (r.report i).1 l).2) :=
  rfl

theorem runReports_append (l₁ l₂ : List ReportInput) :
    ∀ r : OfflineReporter,
      runReports r (l₁ ++ l₂) =
        ((runReports (runReports r l₁).1 l₂).1,
         (runReports r l₁).2 ++ (runReports (runReports r l₁).1 l₂).2) := by
  induction l₁ with
  | nil => intro r; simp [runReports_nil, runReports_cons]
  | cons i rest ih =>
    intro r
    simp [runReports_cons, ih (r.report i).1, List.append_assoc]

theorem collectRun_nil (cfg : Config) (b : BatchState) : collectRun cfg b [] = b := rfl

theorem collectRun_cons (cfg : Config) (b : BatchState) (i : ReportInput) (l : List ReportInput) :
    collectRun cfg b (i :: l) = collectRun cfg (collect cfg i b) l := rfl

theorem collectRun_append (cfg : Config) (b : BatchState) (l₁ l₂ : List ReportInput) :
    collectRun cfg b (l₁ ++ l₂) = collectRun cfg (collectRun cfg b l₁) l₂ :=
  List.foldl_append _ _ _ _

theorem collectRun_num_frames (cfg : Config) (l : List ReportInput) :
    ∀ b : BatchState, (collectRun cfg b l).num_frames = b.num_frames + l.length := by
  induction l with
  | nil => intro b; simp [collectRun_nil]
  | cons i rest ih =>
    intro b
    rw [collectRun_cons, ih, collect_num_frames]
    simp
    omega

/-- A run in which no report call reaches the batch size performs no flush and
just folds `collect` over the inputs. -/
theorem run_no_flush (l : List ReportInput) :
    ∀ r : OfflineReporter, r.batch.num_frames + l.length < r.cfg.frames_per_h5 →
      runReports r l = ({ r with batch := collectRun r.cfg r.batch l }, []) := by
  induction l with
  | nil => intro r _; rw [runReports_nil, collectRun_nil]
  | cons i rest ih =>
    intro r h
    have hne : (collect r.cfg i r.batch).num_frames ≠ r.cfg.frames_per_h5 := by
      rw [collect_num_frames]; simp at h; omega
    rw [runReports_cons, report_no_flush r i hne]
    have h' := ih { r with batch := collect r.cfg i r.batch }
      (by simp [collect_num_frames]; simp at h; omega)
    rw [h', collectRun_cons]
    simp

/-- With batch size 0, no report call ever flushes. -/
theorem run_never_flush_zero (l : List ReportInput) :
    ∀ r : OfflineReporter, r.cfg.frames_per_h5 = 0 →
      runReports r l = ({ r with batch := collectRun r.cfg r.batch l }, []) := by
  induction l with
  | nil => intro r _; rw [runReports_nil, collectRun_nil]
  | cons i rest ih =>
    intro r h
    have hne : (collect r.cfg i r.batch).num_frames ≠ r.cfg.frames_per_h5 := by
      rw [collect_num_frames, h]; omega
    rw [runReports_cons, report_no_flush r i hne]
    have h' := ih { r with batch := collect r.cfg i r.batch } h
    rw [h', collectRun_cons]
    simp

theorem collectRun_lengths (cfg : Config) (l : List ReportInput) :
    ∀ b : BatchState,
      ((collectRun cfg b l).rows.length
          = b.rows.length + (if cfg.contact_map then l.length else 0))
      ∧ ((collectRun cfg b l).cols.length
          = b.cols.length + (if cfg.contact_map then l.length else 0))
      ∧ ((collectRun cfg b l).rmsd.length
          = b.rmsd.length + (if cfg.reference_pdb_file.isSome then l.length else 0))
      ∧ ((collectRun cfg b l).foc.length
          = b.foc.length + (if cfg.fraction_of_contacts then l.length else 0))
      ∧ ((collectRun cfg b l).point_cloud.length
          = b.point_cloud.length + (if cfg.point_cloud then l.length else 0)) := by
  induction l with
  | nil => intro b; simp [collectRun_nil]
  | cons i rest ih =>
    intro b
    obtain ⟨h1, h2, h3, h4, h5⟩ := ih (collect cfg i b)
    rw [collectRun_cons]
    refine ⟨?_, ?_, ?_, ?_, ?_⟩
    · rw [h1, collect_rows]; split_ifs <;> simp <;> omega
    · rw [h2, collect_cols]; split_ifs <;> simp <;> omega
    · rw [h3, collect_rmsd]; split_ifs <;> simp <;> omega
    · rw [h4, collect_foc]; split_ifs <;> simp <;> omega
    · rw [h5, collect_point_cloud]; split_ifs <;> simp <;> omega

/-- Claim C1: with `framesPerBatch = n > 0`, a run of exactly `n` report
calls starting from a freshly reset accumulator flushes exactly once,
writing every enabled buffer of the accumulated batch to the output
container, and leaves the accumulator reset to the empty state; moreover no
report call whose post-increment counter differs from the batch size
performs a flush. -/
theorem c1_flush_after_n_reports (r : OfflineReporter) (inputs : List ReportInput)
    (h0 : r.batch = initBatch) (hn : 0 < r.cfg.frames_per_h5)
    (hlen : inputs.length = r.cfg.frames_per_h5) :
    (runReports r inputs).2
        = [(r.cfg.base_name ++ ".h5", flushContent r.cfg (collectRun r.cfg initBatch inputs))]
    ∧ (runReports r inputs).1.batch = initBatch
    ∧ (∀ (r₂ : OfflineReporter) (i : ReportInput),
        r₂.batch.num_frames + 1 ≠ r₂.cfg.frames_per_h5 →
        (r₂.report i).2 = none ∧ (r₂.report i).1.batch = collect r₂.cfg i r₂.batch) := by
  have hne : inputs ≠ [] := by
    intro he; rw [he] at hlen; simp at hlen; omega
  have hsplit : inputs.dropLast ++ [inputs.getLast hne] = inputs :=
    List.dropLast_append_getLast hne
  have hys : inputs.dropLast.length = r.cfg.frames_per_h5 - 1 := by
    rw [List.length_dropLast, hlen]
  have h1 := run_no_flush inputs.dropLast r (by rw [h0, hys]; simp [initBatch]; omega)
  have hflush :
      (collect r.cfg (inputs.getLast hne)
          (collectRun r.cfg r.batch inputs.dropLast)).num_frames = r.cfg.frames_per_h5 := by
    rw [collect_num_frames, collectRun_num_frames, h0, hys]
    simp [initBatch]
    omega
  have h2 := report_flush { r with batch := collectRun r.cfg r.batch inputs.dropLast }
    (inputs.getLast hne) (by simpa using hflush)
  have hcontent :
      collect r.cfg (inputs.getLast hne) (collectRun r.cfg r.batch inputs.dropLast)
        = collectRun r.cfg initBatch inputs := by
    rw [← h0]
    conv_rhs => rw [← hsplit]
    rw [collectRun_append, collectRun_cons, collectRun_nil]
  refine ⟨?_, ?_, ?_⟩
  · conv_lhs => rw [← hsplit]
    rw [runReports_append, h1]
    simp only [runReports_cons, runReports_nil]
    rw [h2]
    simp [hcontent]
  · conv_lhs => rw [← hsplit]
    rw [runReports_append, h1]
    simp only [runReports_cons, runReports_nil]
    rw [h2]
  · intro r₂ i h'
    have hne₂ : (collect r₂.cfg i r₂.batch).num_frames ≠ r₂.cfg.frames_per_h5 := by
      rw [collect_num_frames]; exact h'
    rw [report_no_flush r₂ i hne₂]
    exact ⟨rfl, rfl⟩

/-- Witness for C1: the spec's scenario configuration — point cloud only,
batch size 2 — flushes exactly once on the second report call, writing the
transposed two-frame batch, and resets the accumulator. -/
theorem c1_flush_after_n_reports_witness :
    rPC.batch = initBatch ∧ 0 < rPC.cfg.frames_per_h5
    ∧ [inA, inB].length = rPC.cfg.frames_per_h5
    ∧ ((runReports rPC [inA, inB]).2
          = [(rPC.cfg.base_name ++ ".h5",
              flushContent rPC.cfg (collectRun rPC.cfg initBatch [inA, inB]))]
        ∧ (runReports rPC [inA, inB]).1.batch = initBatch
        ∧ (∀ (r₂ : OfflineReporter) (i : ReportInput),
            r₂.batch.num_frames + 1 ≠ r₂.cfg.frames_per_h5 →
            (r₂.report i).2 = none ∧ (r₂.report i).1.batch = collect r₂.cfg i r₂.batch)) :=
  ⟨rfl, by decide, by decide,
   c1_flush_after_n_reports rPC [inA, inB] rfl (by decide) (by decide)⟩

/-- Claim C3: starting from the empty accumulator, after `k` collection
steps the frame counter is `k` and every enabled buffer (contact-map rows
and columns, RMSD when a reference file is configured, fraction of
contacts, point cloud) holds exactly `k` entries; and every report call
leaves the batch either reset or equal to one collection step applied to
the previous batch. -/
theorem c3_buffer_lengths (cfg : Config) (inputs : List ReportInput) :
    (collectRun cfg initBatch inputs).num_frames = inputs.length
    ∧ (cfg.contact_map = true →
        (collectRun cfg initBatch inputs).rows.length = inputs.length
        ∧ (collectRun cfg initBatch inputs).cols.length = inputs.length)
    ∧ (cfg.reference_pdb_file.isSome = true →
        (collectRun cfg initBatch inputs).rmsd.length = inputs.length)
    ∧ (cfg.fraction_of_contacts = true →
        (collectRun cfg initBatch inputs).foc.length = inputs.length)
    ∧ (cfg.point_cloud = true →
        (collectRun cfg initBatch inputs).point_cloud.length = inputs.length)
    ∧ (∀ (r : OfflineReporter) (i : ReportInput),
        (r.report i).1.batch = initBatch ∨ (r.report i).1.batch = collect r.cfg i r.batch) := by
  obtain ⟨h1, h2, h3, h4, h5⟩ := collectRun_lengths cfg inputs initBatch
  refine ⟨?_, fun h => ⟨?_, ?_⟩, fun h => ?_, fun h => ?_, fun h => ?_, ?_⟩
  · rw [collectRun_num_frames]; simp [initBatch]
  · rw [h1]; simp [initBatch, h]
  · rw [h2]; simp [initBatch, h]
  · rw [h3]; simp [initBatch, h]
  · rw [h4]; simp [initBatch, h]
  · rw [h5]; simp [initBatch, h]
  · intro r i
    by_cases hf : (collect r.cfg i r.batch).num_frames = r.cfg.frames_per_h5
    · left; rw [report_flush r i hf]
    · right; rw [report_no_flush r i hf]

/-- Witness for C3: with every feature enabled, two collection steps leave
every buffer with exactly two entries. -/
theorem c3_buffer_lengths_witness :
    (collectRun cfgAll initBatch [inA, inB]).num_frames = 2
    ∧ (collectRun cfgAll initBatch [inA, inB]).rows.length = 2
    ∧ (collectRun cfgAll initBatch [inA, inB]).cols.length = 2
    ∧ (collectRun cfgAll initBatch [inA, inB]).rmsd.length = 2
    ∧ (collectRun cfgAll initBatch [inA, inB]).foc.length = 2
    ∧ (collectRun cfgAll initBatch [inA, inB]).point_cloud.length = 2 :=
  ⟨(c3_buffer_lengths cfgAll [inA, inB]).1,
   ((c3_buffer_lengths cfgAll [inA, inB]).2.1 rfl).1,
   ((c3_buffer_lengths cfgAll [inA, inB]).2.1 rfl).2,
   (c3_buffer_lengths cfgAll [inA, inB]).2.2.1 rfl,
   (c3_buffer_lengths cfgAll [inA, inB]).2.2.2.1 rfl,
   (c3_buffer_lengths cfgAll [inA, inB]).2.2.2.2.1 rfl⟩

/-- Claim C4: with the default batch size 0, no run of report calls ever
flushes or writes to the file system; in general a report call whose
post-increment counter differs from the batch size emits no flush and
leaves the file system untouched. -/
theorem c4_zero_batch_never_flushes (r : OfflineReporter) (inputs : List ReportInput)
    (h : r.cfg.frames_per_h5 = 0) :
    (runReports r inputs).2 = [] ∧ (runReports r inputs).1.fs = r.fs
    ∧ (∀ (r₂ : OfflineReporter) (i : ReportInput),
        r₂.batch.num_frames + 1 ≠ r₂.cfg.frames_per_h5 →
        (r₂.report i).2 = none ∧ (r₂.report i).1.fs = r₂.fs) := by
  have h1 := run_never_flush_zero inputs r h
  refine ⟨by rw [h1], by rw [h1], ?_⟩
  intro r₂ i h'
  rw [report_no_flush r₂ i (by rw [collect_num_frames]; exact h')]
  exact ⟨rfl, rfl⟩

/-- Witness for C4: a zero-batch-size reporter performs no flush over a
concrete run. -/
theorem c4_zero_batch_never_flushes_witness :
    rZero.cfg.frames_per_h5 = 0
    ∧ ((runReports rZero [inA, inB]).2 = [] ∧ (runReports rZero [inA, inB]).1.fs = rZero.fs
        ∧ (∀ (r₂ : OfflineReporter) (i : ReportInput),
            r₂.batch.num_frames + 1 ≠ r₂.cfg.frames_per_h5 →
            (r₂.report i).2 = none ∧ (r₂.report i).1.fs = r₂.fs)) :=
  ⟨rfl, c4_zero_batch_never_flushes rZero [inA, inB] rfl⟩

/-- Claim C2: constructing the reporter fails (raises `ValueError`, the
code's `ConfigurationError`) whenever fraction-of-contacts or contact-map
is enabled without a configured reference structure file, and the two
validation checks pass for every configuration with a reference file. -/
theorem c2_constructor_validation (cfg : Config) (fs : FileSystem) :
    ((cfg.fraction_of_contacts = true ∨ cfg.contact_map = true) →
      cfg.reference_pdb_file = none →
      ∃ e, OfflineReporter.init cfg fs = .error e)
    ∧ (cfg.reference_pdb_file.isSome = true →
      OfflineReporter.init cfg fs
        = .ok { cfg := cfg, file_idx := 0, batch := initBatch, fs := fs }) := by
  constructor
  · rintro (hfoc | hcm) hnone
    · exact ⟨"Computing `fraction_of_contacts` requires `refernce_pdb_file`.",
        by simp [OfflineReporter.init, hfoc, hnone]⟩
    · by_cases hfoc : cfg.fraction_of_contacts = true
      · exact ⟨"Computing `fraction_of_contacts` requires `refernce_pdb_file`.",
          by simp [OfflineReporter.init, hfoc, hnone]⟩
      · exact ⟨"Computing `contact_map` requires `refernce_pdb_file`.",
          by simp [OfflineReporter.init, hcm, hnone, hfoc]⟩
  · intro hsome
    obtain ⟨v, hv⟩ := Option.isSome_iff_exists.mp hsome
    simp [OfflineReporter.init, hv]

/-- Witness for C2: a configuration with a reference file passes the checks
and constructs the reporter; one enabling fraction-of-contacts without a
reference file fails with an error. -/
theorem c2_constructor_validation_witness :
    (cfgAll.reference_pdb_file.isSome = true
      ∧ OfflineReporter.init cfgAll []
          = .ok { cfg := cfgAll, file_idx := 0, batch := initBatch, fs := [] })
    ∧ ((cfgBadFoc.fraction_of_contacts = true ∨ cfgBadFoc.contact_map = true)
      ∧ cfgBadFoc.reference_pdb_file = none
      ∧ ∃ e, OfflineReporter.init cfgBadFoc [] = .error e) :=
  ⟨⟨rfl, (c2_constructor_validation cfgAll []).2 rfl⟩,
   ⟨Or.inl rfl, rfl, (c2_constructor_validation cfgBadFoc []).1 (Or.inl rfl) rfl⟩⟩

/-- Claim C5: for a positive report interval, `describeNextReport` returns
`(interval - step % interval, true, false, false, false, none)`: positions
only, no velocities, forces, energies or extra parameters; the first
component is positive, at most the interval, advances the step to the next
multiple of the interval, and equals the full interval when the current
step is itself a multiple. -/
theorem c5_describe_next_report (r : OfflineReporter) (s : ℕ)
    (h : 0 < r.cfg.reportInterval) :
    r.describeNextReport s
        = (r.cfg.reportInterval - s % r.cfg.reportInterval, true, false, false, false, none)
    ∧ 0 < (r.describeNextReport s).1
    ∧ (r.describeNextReport s).1 ≤ r.cfg.reportInterval
    ∧ (s + (r.describeNextReport s).1) % r.cfg.reportInterval = 0
    ∧ (s % r.cfg.reportInterval = 0 → (r.describeNextReport s).1 = r.cfg.reportInterval) := by
  have hmod : s % r.cfg.reportInterval < r.cfg.reportInterval := Nat.mod_lt _ h
  have hdm := Nat.div_add_mod s r.cfg.reportInterval
  refine ⟨rfl, ?_, ?_, ?_, ?_⟩
  · simp only [OfflineReporter.describeNextReport]; omega
  · simp only [OfflineReporter.describeNextReport]; omega
  · simp only [OfflineReporter.describeNextReport]
    have key : s + (r.cfg.reportInterval - s % r.cfg.reportInterval)
        = r.cfg.reportInterval * (s / r.cfg.reportInterval + 1) := by
      rw [Nat.mul_add, Nat.mul_one]
      omega
    rw [key, Nat.mul_mod_right]
  · intro hz
    simp only [OfflineReporter.describeNextReport, hz, Nat.sub_zero]

/-- Witness for C5: interval 10 at step 25 yields 5 steps to the next
multiple; at step 20 it yields the full interval. -/
theorem c5_describe_next_report_witness :
    0 < rAll.cfg.reportInterval
    ∧ (rAll.describeNextReport 25
          = (rAll.cfg.reportInterval - 25 % rAll.cfg.reportInterval,
             true, false, false, false, none)
        ∧ 0 < (rAll.describeNextReport 25).1
        ∧ (rAll.describeNextReport 25).1 ≤ rAll.cfg.reportInterval
        ∧ (25 + (rAll.describeNextReport 25).1) % rAll.cfg.reportInterval = 0
        ∧ (25 % rAll.cfg.reportInterval = 0 →
            (rAll.describeNextReport 25).1 = rAll.cfg.reportInterval)) :=
  ⟨by decide, c5_describe_next_report rAll 25 (by decide)⟩

/-! ### File-system lemmas -/

theorem find?_filter_of_imp {α : Type} (P Q : α → Bool) :
    ∀ l : List α, (∀ e, P e = true → Q e = true) →
      List.find? P (l.filter Q) = List.find? P l := by
  intro l h
  induction l with
  | nil => rfl
  | cons e rest ih =>
    by_cases hq : Q e = true
    · rw [List.filter_cons_of_pos hq]
      by_cases hp : P e = true
      · rw [List.find?_cons_of_pos _ hp, List.find?_cons_of_pos _ hp]
      · rw [List.find?_cons_of_neg _ (by simpa using hp),
            List.find?_cons_of_neg _ (by simpa using hp), ih]
    · rw [List.filter_cons_of_neg (by simpa using hq)]
      have hp : ¬ P e = true := fun hp => hq (h e hp)
      rw [List.find?_cons_of_neg _ (by simpa using hp), ih]

theorem readFile_writeFile_same (fs : FileSystem) (p : String) (c : H5Content) :
    readFile (writeFile fs p c) p = some c := by
  simp [readFile, writeFile]

theorem readFile_writeFile_other (fs : FileSystem) (p q : String) (c : H5Content)
    (h : q ≠ p) :
    readFile (writeFile fs p c) q = readFile fs q := by
  simp only [readFile, writeFile]
  rw [List.find?_cons_of_neg _ (by simpa using fun he => h he.symm)]
  rw [find?_filter_of_imp _ _ fs]
  intro e he
  simp at he ⊢
  rw [he]
  exact fun hep => h (hep ▸ rfl)

/-- Claim C9: every flush targets the single path `base_name ++ ".h5"` in
overwrite mode: `_file_idx` is never incremented, paths other than the
target are untouched, a flushing call leaves exactly the flushed batch's
content at the target, and a later flush replaces the content left by an
earlier one. -/
theorem c9_single_overwritten_path (r : OfflineReporter) (i : ReportInput) :
    (r.report i).1.file_idx = r.file_idx
    ∧ (r.report i).1.cfg = r.cfg
    ∧ (∀ p : String, p ≠ r.cfg.base_name ++ ".h5" →
        readFile (r.report i).1.fs p = readFile r.fs p)
    ∧ ((collect r.cfg i r.batch).num_frames = r.cfg.frames_per_h5 →
        (r.report i).2 = some (r.cfg.base_name ++ ".h5", flushContent r.cfg (collect r.cfg i r.batch))
        ∧ readFile (r.report i).1.fs (r.cfg.base_name ++ ".h5")
            = some (flushContent r.cfg (collect r.cfg i r.batch)))
    ∧ (∀ i₂ : ReportInput,
        (collect r.cfg i₂ (r.report i).1.batch).num_frames = r.cfg.frames_per_h5 →
        readFile ((r.report i).1.report i₂).1.fs (r.cfg.base_name ++ ".h5")
          = some (flushContent r.cfg (collect r.cfg i₂ (r.report i).1.batch))) := by
  have hsplit : ∀ (r' : OfflineReporter), r'.cfg = r.cfg →
      (collect r.cfg i r'.batch).num_frames = r.cfg.frames_per_h5 ∨
      (collect r.cfg i r'.batch).num_frames ≠ r.cfg.frames_per_h5 := fun _ _ => em _
  refine ⟨?_, ?_, ?_, ?_, ?_⟩
  · by_cases hf : (collect r.cfg i r.batch).num_frames = r.cfg.frames_per_h5
    · rw [report_flush r i hf]
    · rw [report_no_flush r i hf]
  · by_cases hf : (collect r.cfg i r.batch).num_frames = r.cfg.frames_per_h5
    · rw [report_flush r i hf]
    · rw [report_no_flush r i hf]
  · intro p hp
    by_cases hf : (collect r.cfg i r.batch).num_frames = r.cfg.frames_per_h5
    · rw [report_flush r i hf]
      exact readFile_writeFile_other r.fs _ p _ hp
    · rw [report_no_flush r i hf]
  · intro hf
    rw [report_flush r i hf]
    exact ⟨rfl, readFile_writeFile_same r.fs _ _⟩
  · intro i₂ hf₂
    have hcfg : (r.report i).1.cfg = r.cfg := by
      by_cases hf : (collect r.cfg i r.batch).num_frames = r.cfg.frames_per_h5
      · rw [report_flush r i hf]
      · rw [report_no_flush r i hf]
    have hf₂' : (collect (r.report i).1.cfg i₂ (r.report i).1.batch).num_frames
        = (r.report i).1.cfg.frames_per_h5 := by rw [hcfg]; exact hf₂
    rw [report_flush (r.report i).1 i₂ hf₂']
    simp only [hcfg]
    exact readFile_writeFile_same _ _ _

/-- Witness for C9: under the point-cloud-only batch-size-2 configuration,
the second report call flushes to `"out.h5"` and that path then holds
exactly the flushed batch's content. -/
theorem c9_single_overwritten_path_witness :
    (collect rPC.cfg inB (rPC.report inA).1.batch).num_frames = rPC.cfg.frames_per_h5
    ∧ ((rPC.report inA).1.file_idx = rPC.file_idx
      ∧ readFile ((rPC.report inA).1.report inB).1.fs (rPC.cfg.base_name ++ ".h5")
          = some (flushContent rPC.cfg (collect rPC.cfg inB (rPC.report inA).1.batch))) :=
  ⟨by decide,
   (c9_single_overwritten_path rPC inA).1,
   (c9_single_overwritten_path rPC inA).2.2.2.2 inB (by decide)⟩

theorem sliceCoord_transposeFrame (c : Fin 3) (fr : List Vec3) :
    sliceCoord c (transposeFrame fr) = fr.map (Vec3.coord c) := by
  match c with
  | ⟨0, _⟩ => rfl
  | ⟨1, _⟩ => rfl
  | ⟨2, _⟩ => rfl

/-- Claim C7: the point-cloud slot written at flush is the accumulated batch
with atom and coordinate axes transposed: for a rectangular batch of `n`
frames of `m` atoms, the written data has `n` frames of 3 coordinate slices
of length `m`, and entry `[f, c, a]` is coordinate `c` of atom `a` of
collected frame `f`. -/
theorem c7_point_cloud_transposed (cfg : Config) (b : BatchState) (m f a : ℕ) (c : Fin 3)
    (hrect : ∀ fr ∈ b.point_cloud, fr.length = m)
    (hf : f < b.point_cloud.length) (ha : a < m) :
    (cfg.point_cloud = true →
      (flushContent cfg b).pointCloudSlot = some (transpose021 b.point_cloud))
    ∧ (transpose021 b.point_cloud).length = b.point_cloud.length
    ∧ (sliceCoord c ((transpose021 b.point_cloud).getD f ([], [], []))).length = m
    ∧ (sliceCoord c ((transpose021 b.point_cloud).getD f ([], [], []))).getD a 0
        = Vec3.coord c ((b.point_cloud.getD f []).getD a ((0 : ℚ), (0 : ℚ), (0 : ℚ))) := by
  have hlen : (transpose021 b.point_cloud).length = b.point_cloud.length := by
    simp [transpose021]
  have hf' : f < (transpose021 b.point_cloud).length := by rw [hlen]; exact hf
  have hgetT : (transpose021 b.point_cloud).getD f ([], [], [])
      = transposeFrame (b.point_cloud.getD f []) := by
    rw [List.getD_eq_getElem _ _ hf', List.getD_eq_getElem _ _ hf]
    simp [transpose021]
  have hfr : (b.point_cloud.getD f []).length = m := by
    rw [List.getD_eq_getElem _ _ hf]
    exact hrect _ (List.getElem_mem hf)
  refine ⟨fun hpc => by simp [flushContent, hpc], hlen, ?_, ?_⟩
  · rw [hgetT, sliceCoord_transposeFrame, List.length_map, hfr]
  · rw [hgetT, sliceCoord_transposeFrame]
    have ha' : a < (b.point_cloud.getD f []).length := by rw [hfr]; exact ha
    have ha'' : a < ((b.point_cloud.getD f []).map (Vec3.coord c)).length := by
      simpa using ha'
    rw [List.getD_eq_getElem _ _ ha'', List.getD_eq_getElem _ _ ha']
    simp

/-- Witness for C7: a two-frame, two-atom batch is written in
`[frame, coordinate, atom]` layout; entry `[1, 0, 1]` is the x-coordinate
of atom 1 of frame 1. -/
theorem c7_point_cloud_transposed_witness :
    (∀ fr ∈ (collectRun cfgPCOnly initBatch [inA, inB]).point_cloud, fr.length = 2)
    ∧ 1 < (collectRun cfgPCOnly initBatch [inA, inB]).point_cloud.length
    ∧ 1 < 2
    ∧ ((cfgPCOnly.point_cloud = true →
        (flushContent cfgPCOnly (collectRun cfgPCOnly initBatch [inA, inB])).pointCloudSlot
          = some (transpose021 (collectRun cfgPCOnly initBatch [inA, inB]).point_cloud))
      ∧ (transpose021 (collectRun cfgPCOnly initBatch [inA, inB]).point_cloud).length
          = (collectRun cfgPCOnly initBatch [inA, inB]).point_cloud.length
      ∧ (sliceCoord ⟨0, by decide⟩
            ((transpose021 (collectRun cfgPCOnly initBatch [inA, inB]).point_cloud).getD 1
              ([], [], []))).length = 2
      ∧ (sliceCoord ⟨0, by decide⟩
            ((transpose021 (collectRun cfgPCOnly initBatch [inA, inB]).point_cloud).getD 1
              ([], [], []))).getD 1 0
          = Vec3.coord ⟨0, by decide⟩
              (((collectRun cfgPCOnly initBatch [inA, inB]).point_cloud.getD 1 []).getD 1
                ((0 : ℚ), (0 : ℚ), (0 : ℚ)))) :=
  ⟨by decide, by decide, by decide,
   c7_point_cloud_transposed cfgPCOnly (collectRun cfgPCOnly initBatch [inA, inB]) 2 1 1
     ⟨0, by decide⟩ (by decide) (by decide) (by decide)⟩

theorem sqDist_comm (p q : Vec3) : sqDist p q = sqDist q p := by
  unfold sqDist; ring

theorem dist3_le_iff (p q : Vec3) (t : ℚ) (ht : 0 ≤ t) :
    dist3 p q ≤ (t : ℝ) ↔ sqDist p q ≤ t ^ 2 := by
  rw [dist3, Real.sqrt_le_left (by exact_mod_cast ht)]
  exact ⟨fun h => by exact_mod_cast h, fun h => by exact_mod_cast h⟩

/-- Claim C8: the contact-map relation is threshold-consistent (for in-range
`i ≠ j`, marked iff the Euclidean distance is at most the threshold),
symmetric, and excludes self-pairs. -/
theorem c8_contact_map_symmetric (positions : List Vec3) (t : ℚ) (i j : ℕ)
    (ht : 0 ≤ t) (hi : i < positions.length) (hj : j < positions.length) :
    (contact_matrix positions t i j = true ↔
       i ≠ j ∧ dist3 (positions.getD i (0, 0, 0)) (positions.getD j (0, 0, 0)) ≤ (t : ℝ))
    ∧ contact_matrix positions t i j = contact_matrix positions t j i
    ∧ contact_matrix positions t i i = false := by
  refine ⟨?_, ?_, ?_⟩
  · constructor
    · intro h
      simp only [contact_matrix, Bool.and_eq_true, decide_eq_true_eq] at h
      exact ⟨h.1.1.1, (dist3_le_iff _ _ t ht).mpr h.2⟩
    · rintro ⟨hne, hd⟩
      simp only [contact_matrix, Bool.and_eq_true, decide_eq_true_eq]
      exact ⟨⟨⟨hne, hi⟩, hj⟩, (dist3_le_iff _ _ t ht).mp hd⟩
  · have key : ∀ a b : Bool, (a = true ↔ b = true) → a = b := by decide
    apply key
    simp only [contact_matrix, Bool.and_eq_true, decide_eq_true_eq]
    constructor
    · rintro ⟨⟨⟨h1, h2⟩, h3⟩, h4⟩
      exact ⟨⟨⟨Ne.symm h1, h3⟩, h2⟩, by rwa [sqDist_comm]⟩
    · rintro ⟨⟨⟨h1, h2⟩, h3⟩, h4⟩
      exact ⟨⟨⟨Ne.symm h1, h3⟩, h2⟩, by rwa [sqDist_comm]⟩
  · simp [contact_matrix]

/-- Witness for C8: two atoms 1 Å apart under threshold 8 are marked in both
orders and never against themselves. -/
theorem c8_contact_map_symmetric_witness :
    (0 : ℚ) ≤ 8 ∧ 0 < frameA.length ∧ 1 < frameA.length
    ∧ ((contact_matrix frameA 8 0 1 = true ↔
          (0 : ℕ) ≠ 1 ∧ dist3 (frameA.getD 0 (0, 0, 0)) (frameA.getD 1 (0, 0, 0)) ≤ ((8 : ℚ) : ℝ))
        ∧ contact_matrix frameA 8 0 1 = contact_matrix frameA 8 1 0
        ∧ contact_matrix frameA 8 0 0 = false) :=
  ⟨by decide, by decide, by decide,
   c8_contact_map_symmetric frameA 8 0 1 (by decide) (by decide) (by decide)⟩

/-- Claim C10: the stored contact-map row and column buffers are the COO
indices cast to signed 16-bit integers; the cast is the identity below
`2^15`, always lands in `[-2^15, 2^15)` congruent to the index modulo
`2^16`, and differs from every index `≥ 2^15`; a frame whose marked pairs
all have indices below `2^15` is stored exactly. -/
theorem c10_int16_cast (positions : List Vec3) (t : ℚ) (n : ℕ) :
    frameRows positions t = (contactPairs positions t).map (fun p => int16cast p.1)
    ∧ frameCols positions t = (contactPairs positions t).map (fun p => int16cast p.2)
    ∧ (n < 2 ^ 15 → int16cast n = n)
    ∧ (2 ^ 15 ≤ n → int16cast n ≠ n)
    ∧ (-2 ^ 15 ≤ int16cast n ∧ int16cast n < 2 ^ 15
        ∧ int16cast n % 2 ^ 16 = (n : ℤ) % 2 ^ 16)
    ∧ ((∀ p ∈ contactPairs positions t, p.1 < 2 ^ 15 ∧ p.2 < 2 ^ 15) →
        frameRows positions t = (contactPairs positions t).map (fun p => (p.1 : ℤ))
        ∧ frameCols positions t = (contactPairs positions t).map (fun p => (p.2 : ℤ))) := by
  have hsmall : ∀ k : ℕ, k < 2 ^ 15 → int16cast k = k := by
    intro k hk; unfold int16cast; omega
  refine ⟨rfl, rfl, hsmall n, ?_, ⟨?_, ?_, ?_⟩, ?_⟩
  · intro hn
    unfold int16cast
    omega
  · unfold int16cast; omega
  · unfold int16cast; omega
  · unfold int16cast; omega
  · intro hp
    constructor
    · exact List.map_congr_left fun p hmem => hsmall p.1 (hp p hmem).1
    · exact List.map_congr_left fun p hmem => hsmall p.2 (hp p hmem).2

theorem contactPairs_frameA : contactPairs frameA 8 = [(0, 1), (1, 0)] := by
  norm_num [contactPairs, contact_matrix, frameA, sqDist, List.range_succ,
    List.filterMap_cons, List.filterMap_nil]

/-- Witness for C10: index 5 is stored exactly, index 40000 wraps and
differs, and a small two-atom frame's row buffer equals the true indices. -/
theorem c10_int16_cast_witness :
    (5 : ℕ) < 2 ^ 15 ∧ int16cast 5 = 5
    ∧ 2 ^ 15 ≤ (40000 : ℕ) ∧ int16cast 40000 ≠ 40000
    ∧ (∀ p ∈ contactPairs frameA 8, p.1 < 2 ^ 15 ∧ p.2 < 2 ^ 15)
    ∧ frameRows frameA 8 = (contactPairs frameA 8).map (fun p => (p.1 : ℤ)) :=
  ⟨by decide, (c10_int16_cast frameA 8 5).2.2.1 (by decide),
   by decide, (c10_int16_cast frameA 8 40000).2.2.2.1 (by decide),
   by rw [contactPairs_frameA]; decide,
   ((c10_int16_cast frameA 8 5).2.2.2.2.2 (by rw [contactPairs_frameA]; decide)).1⟩

theorem applyFlushStep_fields (m : MemState) (s : FlushStep) :
    (applyFlushStep m s).num_frames = m.num_frames
    ∧ (applyFlushStep m s).rows = m.rows
    ∧ (applyFlushStep m s).cols = m.cols
    ∧ (applyFlushStep m s).rmsd = m.rmsd
    ∧ (applyFlushStep m s).foc = m.foc
    ∧ ((applyFlushStep m s).point_cloud = m.point_cloud
        ∨ (applyFlushStep m s).point_cloud = m.point_cloud.afterTranspose) := by
  cases s
  case transposePC =>
    refine ⟨rfl, rfl, rfl, rfl, rfl, Or.inr ?_⟩
    cases hb : m.point_cloud <;> simp [applyFlushStep, PCBuffer.afterTranspose, hb]
  all_goals exact ⟨rfl, rfl, rfl, rfl, rfl, Or.inl rfl⟩

theorem afterTranspose_afterTranspose (p : PCBuffer) :
    p.afterTranspose.afterTranspose = p.afterTranspose := by
  cases p <;> rfl

theorem foldl_flush_fields (steps : List FlushStep) :
    ∀ m : MemState,
      (steps.foldl applyFlushStep m).num_frames = m.num_frames
      ∧ (steps.foldl applyFlushStep m).rows = m.rows
      ∧ (steps.foldl applyFlushStep m).cols = m.cols
      ∧ (steps.foldl applyFlushStep m).rmsd = m.rmsd
      ∧ (steps.foldl applyFlushStep m).foc = m.foc
      ∧ ((steps.foldl applyFlushStep m).point_cloud = m.point_cloud
          ∨ (steps.foldl applyFlushStep m).point_cloud = m.point_cloud.afterTranspose) := by
  induction steps with
  | nil => intro m; exact ⟨rfl, rfl, rfl, rfl, rfl, Or.inl rfl⟩
  | cons s rest ih =>
    intro m
    obtain ⟨h1, h2, h3, h4, h5, h6⟩ := ih (applyFlushStep m s)
    obtain ⟨g1, g2, g3, g4, g5, g6⟩ := applyFlushStep_fields m s
    rw [List.foldl_cons]
    refine ⟨h1.trans g1, h2.trans g2, h3.trans g3, h4.trans g4, h5.trans g5, ?_⟩
    rcases h6 with h | h <;> rcases g6 with g | g
    · exact Or.inl (h.trans g)
    · exact Or.inr (h.trans g)
    · exact Or.inr (h ▸ g ▸ rfl)
    · exact Or.inr (by rw [h, g, afterTranspose_afterTranspose])

/-- Counterexample for C6: under a point-cloud + RMSD configuration, an
`IOError` raised by the RMSD container write (step 3 of the flush body)
leaves the in-memory state different from its pre-flush value: the
point-cloud buffer was already reassigned to its transposed form by
lines 190-192. -/
theorem c6_counterexample_point_cloud_mutated :
    (flushSteps cfgPCRef).get? 3 = some FlushStep.writeRMSD
    ∧ memAfterAbort cfgPCRef bC6 3 ≠ bC6.toMem := by
  constructor
  · rfl
  · decide

/-- Claim C6, amended: an `IOError` aborting the flush at any step leaves
the frame counter and the contact-map, RMSD and fraction-of-contacts
buffers exactly as they were, and performs no reset; the point-cloud buffer
is either untouched or already reassigned to its transposed form; a failure
at the file open (step 0) or the first write (step 1) leaves the whole
state unchanged. -/
theorem c6_abort_preserves_buffers (cfg : Config) (b : BatchState) (k : ℕ) :
    (memAfterAbort cfg b k).num_frames = b.num_frames
    ∧ (memAfterAbort cfg b k).rows = b.rows
    ∧ (memAfterAbort cfg b k).cols = b.cols
    ∧ (memAfterAbort cfg b k).rmsd = b.rmsd
    ∧ (memAfterAbort cfg b k).foc = b.foc
    ∧ ((memAfterAbort cfg b k).point_cloud = PCBuffer.raw b.point_cloud
        ∨ (memAfterAbort cfg b k).point_cloud = PCBuffer.transposed (transpose021 b.point_cloud))
    ∧ (k ≤ 1 → memAfterAbort cfg b k = b.toMem) := by
  obtain ⟨h1, h2, h3, h4, h5, h6⟩ := foldl_flush_fields ((flushSteps cfg).take k) b.toMem
  refine ⟨h1, h2, h3, h4, h5, ?_, ?_⟩
  · rcases h6 with h | h
    · exact Or.inl h
    · exact Or.inr h
  · intro hk
    unfold memAfterAbort
    interval_cases k
    · rfl
    · have ht : (flushSteps cfg).take 1 = [FlushStep.openFile] := by
        simp [flushSteps]
      rw [ht]
      rfl

/-- Witness for C6: aborting before any step ran leaves the state fully
unchanged. -/
theorem c6_abort_preserves_buffers_witness :
    ((memAfterAbort cfgPCRef bC6 0).num_frames = bC6.num_frames
      ∧ (memAfterAbort cfgPCRef bC6 0).rows = bC6.rows
      ∧ (memAfterAbort cfgPCRef bC6 0).cols = bC6.cols
      ∧ (memAfterAbort cfgPCRef bC6 0).rmsd = bC6.rmsd
      ∧ (memAfterAbort cfgPCRef bC6 0).foc = bC6.foc
      ∧ ((memAfterAbort cfgPCRef bC6 0).point_cloud = PCBuffer.raw bC6.point_cloud
          ∨ (memAfterAbort cfgPCRef bC6 0).point_cloud
              = PCBuffer.transposed (transpose021 bC6.point_cloud))
      ∧ ((0 : ℕ) ≤ 1 → memAfterAbort cfgPCRef bC6 0 = bC6.toMem))
    ∧ memAfterAbort cfgPCRef bC6 0 = bC6.toMem :=
  ⟨c6_abort_preserves_buffers cfgPCRef bC6 0,
   (c6_abort_preserves_buffers cfgPCRef bC6 0).2.2.2.2.2.2 (by decide)⟩
